import Mathlib

/-!
Shallow embedding of the book-catalog backend (Express + Prisma + Redis):
the cache layer (`cacheService.js`, `config/redis.js`), the user service
read path (`userService.js`), the auth middleware (`middleware/auth.js`),
the token store (`services/tokenService.js`), the auth route handlers
(`routes/auth.js`) and the book rating validation
(`middleware/validation.js`, `bookService.js`).

Conventions of the embedding:
- async I/O becomes explicit state passing; `Date.now()` becomes a `now`
  argument (milliseconds for the relational store, seconds for JWT `exp`);
- a JS function that can throw is embedded as `Except`; a JS `try/catch`
  that swallows the error makes the embedded function total;
- JWT signing/verification is abstracted as injected functions
  `String → Option JwtPayload` (none = verification throws / decode
  returns null).
-/

namespace BookApi

/-! ### Redis layer (`config/redis.js`)

`redisUtils.*` wrap the node-redis client; every wrapper logs and
RE-THROWS on client failure (`throw error`).  A `CacheState` with
`up = false` models an unreachable store: every raw operation errors. -/

instance {ε α : Type} [DecidableEq ε] [DecidableEq α] : DecidableEq (Except ε α) :=
  fun a b =>
    match a, b with
    | .ok x, .ok y =>
      if h : x = y then .isTrue (by rw [h]) else .isFalse (fun hc => h (Except.ok.inj hc))
    | .error e, .error f =>
      if h : e = f then .isTrue (by rw [h]) else .isFalse (fun hc => h (Except.error.inj hc))
    | .ok _, .error _ => .isFalse (fun hc => Except.noConfusion hc)
    | .error _, .ok _ => .isFalse (fun hc => Except.noConfusion hc)

structure UserRec where
  id : String
  name : String
  email : String
  isAdmin : Bool
deriving DecidableEq

inductive RVal where
  | vStr : String → RVal
  | vNum : Int → RVal
  | vBool : Bool → RVal
  | vUser : UserRec → RVal
deriving DecidableEq

/-- JS truthiness of a cached (JSON-parsed) value. -/
def RVal.truthy : RVal → Bool
  | .vStr s => !(s == "")
  | .vNum n => !(n == 0)
  | .vBool b => b
  | .vUser _ => true

structure CacheEntry where
  key : String
  val : RVal
  ttl : Nat
deriving DecidableEq

structure CacheState where
  up : Bool
  entries : List CacheEntry
deriving DecidableEq

inductive CacheErr where
  | storeDown
deriving DecidableEq

/-- Insert/overwrite a key (redis last-write-wins semantics). -/
def cacheInsert (es : List CacheEntry) (k : String) (v : RVal) (ttl : Nat) :
    List CacheEntry :=
  ⟨k, v, ttl⟩ :: es.filter (fun e => !(e.key == k))

/-- `redisUtils.get`: returns the parsed value or null; rethrows on client error. -/
def redisGet (c : CacheState) (k : String) : Except CacheErr (Option RVal) :=
  if c.up then .ok ((c.entries.find? (fun e => e.key == k)).map CacheEntry.val)
  else .error .storeDown

/-- `redisUtils.setEx`: SET with expiry; rethrows on client error. -/
def redisSetEx (c : CacheState) (k : String) (ttl : Nat) (v : RVal) :
    Except CacheErr CacheState :=
  if c.up then .ok { c with entries := cacheInsert c.entries k v ttl }
  else .error .storeDown

/-- `redisUtils.del` applied to a list of keys: returns the deletion count. -/
def redisDel (c : CacheState) (ks : List String) : Except CacheErr (CacheState × Nat) :=
  if c.up then
    .ok ({ c with entries := c.entries.filter (fun e => !(ks.contains e.key)) },
         (c.entries.filter (fun e => ks.contains e.key)).length)
  else .error .storeDown

/-- `redisUtils.exists`: the number of existing keys among the given one. -/
def redisExists (c : CacheState) (k : String) : Except CacheErr Nat :=
  if c.up then .ok (if c.entries.any (fun e => e.key == k) then 1 else 0)
  else .error .storeDown

/-- `redisUtils.incr`: INCR creates a missing key at 1 (no TTL), else adds one
keeping the entry's TTL. -/
def redisIncr (c : CacheState) (k : String) : Except CacheErr (CacheState × Int) :=
  if c.up then
    match c.entries.find? (fun e => e.key == k) with
    | some e =>
      let n : Int := match e.val with | .vNum m => m | _ => 0
      .ok ({ c with entries := cacheInsert c.entries k (.vNum (n + 1)) e.ttl }, n + 1)
    | none => .ok ({ c with entries := cacheInsert c.entries k (.vNum 1) 0 }, 1)
  else .error .storeDown

/-- `String.startsWith`, computed on character lists so that proofs can
evaluate it. -/
def strStartsWith (s pre : String) : Bool := pre.toList.isPrefixOf s.toList

/-- `String.endsWith`, computed on character lists. -/
def strEndsWith (s suf : String) : Bool := suf.toList.isSuffixOf s.toList

/-- Redis glob pattern restricted to the forms the code uses
(`books:*`, `stats:*`, `auth_token:<id>:*`, or a literal key). -/
def globMatch (pat s : String) : Bool :=
  if strEndsWith pat "*" then pat.toList.dropLast.isPrefixOf s.toList else pat == s

/-- `redisUtils.keys`: all keys matching a glob pattern. -/
def redisKeys (c : CacheState) (pat : String) : Except CacheErr (List String) :=
  if c.up then .ok ((c.entries.filter (fun e => globMatch pat e.key)).map CacheEntry.key)
  else .error .storeDown

/-! ### Cache service (`services/cacheService.js`)

Every method wraps the raw redis call in `try { … } catch { return
null / 0 / false }`, so the embedded functions are total: a store
failure degrades to a miss / no-op and the state is left unchanged. -/

/-- `CacheService.set`: returns the redis reply, or null after a caught error. -/
def csSet (c : CacheState) (k : String) (v : RVal) (ttl : Nat) :
    CacheState × Option String :=
  match redisSetEx c k ttl v with
  | .ok c' => (c', some "OK")
  | .error _ => (c, none)

/-- `CacheService.get`: the cached value, or null after a caught error. -/
def csGet (c : CacheState) (k : String) : Option RVal :=
  match redisGet c k with
  | .ok v => v
  | .error _ => none

/-- `CacheService.delete`: number of keys deleted, 0 after a caught error. -/
def csDelete (c : CacheState) (k : String) : CacheState × Nat :=
  match redisDel c [k] with
  | .ok r => r
  | .error _ => (c, 0)

/-- `CacheService.deleteByPattern`: KEYS then DEL, 0 after a caught error. -/
def csDeleteByPattern (c : CacheState) (pat : String) : CacheState × Nat :=
  match redisKeys c pat with
  | .error _ => (c, 0)
  | .ok ks =>
    if 0 < ks.length then
      match redisDel c ks with
      | .ok r => r
      | .error _ => (c, 0)
    else (c, 0)

/-- `CacheService.exists`: whether EXISTS returned 1, false after a caught error. -/
def csExists (c : CacheState) (k : String) : Bool :=
  match redisExists c k with
  | .ok n => n == 1
  | .error _ => false

/-- `CacheService.increment`: the new counter value, 0 after a caught error. -/
def csIncrement (c : CacheState) (k : String) : CacheState × Int :=
  match redisIncr c k with
  | .ok r => r
  | .error _ => (c, 0)

/-- `CacheService.generateKey(prefix, key)` = `` `${prefix}:${key}` ``. -/
def generateKey (pre k : String) : String := pre ++ ":" ++ k

/-! ### `UserService.findById` (`services/userService.js`)

The service computes `const userId = parseInt(id)` and uses `userId` for
the cache key while querying Prisma with the original string `id`
(the `users.id` column is TEXT). -/

/-- JS `parseInt` on a string: optional sign, leading decimal digits;
`none` models `NaN`. -/
def parseIntJs (s : String) : Option Int :=
  let cs := s.toList.dropWhile (fun c => c == ' ')
  let signRest : Bool × List Char :=
    match cs with
    | '-' :: r => (true, r)
    | '+' :: r => (false, r)
    | r => (false, r)
  let ds := signRest.2.takeWhile Char.isDigit
  if ds.isEmpty then none
  else
    let n : Nat := ds.foldl (fun acc c => acc * 10 + (c.toNat - '0'.toNat)) 0
    some (if signRest.1 then -(n : Int) else (n : Int))

/-- JS string interpolation of the `parseInt` result (`NaN` prints as "NaN"). -/
def jsNumKey : Option Int → String
  | none => "NaN"
  | some n => toString n

/-- `UserService.findById`: cache-aside read.  Cache key is
`user:${parseInt(id)}`; the relational lookup uses the string `id`.
Only user records are ever written under `user:*` keys, so a cached
non-user value is treated as a miss. -/
def findById (c : CacheState) (db : List UserRec) (id : String) :
    CacheState × Option UserRec :=
  let key := generateKey "user" (jsNumKey (parseIntJs id))
  match csGet c key with
  | some (.vUser u) => (c, some u)
  | _ =>
    match db.find? (fun u => u.id == id) with
    | some u => ((csSet c key (.vUser u) 600).1, some u)
    | none => (c, none)

/-! ### Auth middleware (`middleware/auth.js`)

JWT verification and decoding are abstracted as injected functions:
`verify tok = none` models `jwt.verify` throwing (invalid signature or
expired), `decode tok = none` models `jwt.decode` returning null on a
malformed token.  `exp` is in seconds since the epoch and may be absent
from a decoded payload. -/

structure JwtPayload where
  userId : String
  type : String
  exp : Option Nat
deriving DecidableEq

inductive AuthErr where
  | authentication : String → AuthErr
  | internal : CacheErr → AuthErr
deriving DecidableEq

/-- `authenticate` middleware: bearer extraction, blacklist lookup via the
RAW `redisUtils.get` (which rethrows on store failure — such an error is not
a `JsonWebTokenError`, so the catch block forwards it via `next(error)`,
modeled as `.internal`), JWT verification, then `UserService.findById`. -/
def authenticate (verify : String → Option JwtPayload) (c : CacheState)
    (db : List UserRec) (authHeader : Option String) :
    Except AuthErr (CacheState × UserRec) :=
  match authHeader with
  | none => .error (.authentication "Access token required")
  | some h =>
    if !(strStartsWith h "Bearer ") then .error (.authentication "Access token required")
    else
      let token := h.drop 7
      if token == "" then .error (.authentication "Access token required")
      else
        match redisGet c ("blacklist:" ++ token) with
        | .error e => .error (.internal e)
        | .ok b =>
          if (b.map RVal.truthy).getD false then
            .error (.authentication "Token has been revoked")
          else
            match verify token with
            | none => .error (.authentication "Invalid token")
            | some payload =>
              match findById c db payload.userId with
              | (c', some u) => .ok (c', u)
              | (_, none) => .error (.authentication "User not found")

/-- `blacklistToken`: `jwt.decode` the token; if a payload with a truthy
`exp` came back and `exp - now > 0`, SETEX `blacklist:<token>` for the
remaining lifetime.  The whole body is inside `try/catch`, so the function
is total: on a malformed token, a past `exp`, or a store failure it leaves
the state unchanged.  (A payload with `exp = 0` is skipped by the JS
truthiness test `decoded && decoded.exp`; here `0 - now ≤ 0` skips it the
same way.) -/
def blacklistToken (decode : String → Option JwtPayload) (c : CacheState)
    (token : String) (now : Nat) : CacheState :=
  match decode token with
  | none => c
  | some d =>
    match d.exp with
    | none => c
    | some e =>
      if 0 < (e : Int) - (now : Int) then
        match redisSetEx c ("blacklist:" ++ token) ((e : Int) - (now : Int)).toNat
            (.vBool true) with
        | .ok c' => c'
        | .error _ => c
      else c

/-- `POST /auth/logout` handler body (after `authenticate` succeeded):
blacklist the access token, blacklist the refresh token if provided,
respond 200.  Neither blacklist call can throw. -/
def logoutHandler (decode : String → Option JwtPayload) (c : CacheState)
    (accessToken refreshToken : Option String) (now : Nat) : CacheState × Nat :=
  let c1 := match accessToken with
    | some t => blacklistToken decode c t now
    | none => c
  let c2 := match refreshToken with
    | some t => blacklistToken decode c1 t now
    | none => c1
  (c2, 200)

/-! ### `POST /auth/refresh` handler (`routes/auth.js`)

The module imports only `redisClient` from `config/redis.js`, yet line
314 reads `await redis.exists(...)`: the identifier `redis` is unbound, so
once `verifyRefreshToken` has succeeded the handler always raises
`ReferenceError: redis is not defined`, which the error middleware maps to
a 500 response.  Everything after that line (blacklist check,
`blacklistToken(refreshToken)`, issuing the new pair) is unreachable. -/

inductive RefreshResult where
  | okPair : String → String → RefreshResult
  | authError : String → RefreshResult
  | referenceError : String → RefreshResult
deriving DecidableEq

/-- `POST /auth/refresh` handler.  `.authError` is the 401 produced when
`verifyRefreshToken` throws (`jwt.verify` failure mapped by the error
middleware).  The cache state is returned unchanged in every case: in
particular the presented refresh token is never blacklisted. -/
def refreshHandler (verifyRefresh : String → Option JwtPayload)
    (c : CacheState) (refreshToken : String) : CacheState × RefreshResult :=
  match verifyRefresh refreshToken with
  | none => (c, .authError "Invalid refresh token")
  | some _ => (c, .referenceError "redis is not defined")

/-! ### Token store (`services/tokenService.js`)

Two Prisma tables: `verification_tokens` (with a `type` enum column) and
`password_reset_tokens`.  Times are in milliseconds; `id` is the new
row's primary key, `tok` the crypto-random token string (its freshness —
256 bits of entropy plus the store's unique index on `token` — enters the
theorems as an explicit hypothesis). -/

inductive VTokenType where
  | emailVerification
  | passwordReset
deriving DecidableEq

structure VerificationToken where
  id : Nat
  userId : String
  token : String
  type : VTokenType
  expiresAt : Nat
  usedAt : Option Nat
deriving DecidableEq

structure PasswordResetToken where
  id : Nat
  userId : String
  token : String
  expiresAt : Nat
  usedAt : Option Nat
deriving DecidableEq

structure TokenDb where
  verificationTokens : List VerificationToken
  passwordResetTokens : List PasswordResetToken
deriving DecidableEq

/-- Negation of the `deleteMany({ userId, type: EMAIL_VERIFICATION })`
predicate: the rows that survive issuing a new email-verification token. -/
def evKeep (userId : String) (t : VerificationToken) : Bool :=
  !(decide (t.userId = userId) && decide (t.type = .emailVerification))

/-- Negation of the `deleteMany({ userId })` predicate on the
password-reset table. -/
def prKeep (userId : String) (t : PasswordResetToken) : Bool :=
  !(decide (t.userId = userId))

/-- `TokenService.createEmailVerificationToken`: delete every existing
EMAIL_VERIFICATION row of this user, then insert a fresh row expiring in
24 hours. -/
def createEmailVerificationToken (db : TokenDb) (userId tok : String)
    (newId now : Nat) : TokenDb × VerificationToken :=
  let vt : VerificationToken :=
    ⟨newId, userId, tok, .emailVerification, now + 24 * 60 * 60 * 1000, none⟩
  ({ db with verificationTokens :=
      (db.verificationTokens.filter (evKeep userId)) ++ [vt] },
   vt)

/-- `TokenService.createPasswordResetToken`: delete every existing
password-reset row of this user, then insert a fresh row expiring in
1 hour. -/
def createPasswordResetToken (db : TokenDb) (userId tok : String)
    (newId now : Nat) : TokenDb × PasswordResetToken :=
  let rt : PasswordResetToken := ⟨newId, userId, tok, now + 60 * 60 * 1000, none⟩
  ({ db with passwordResetTokens :=
      (db.passwordResetTokens.filter (prKeep userId)) ++ [rt] },
   rt)

/-- The `findFirst` WHERE clause of `verifyEmailVerificationToken`: token
string and type match, `usedAt` null, `expiresAt > now`. -/
def evValid (tok : String) (now : Nat) (t : VerificationToken) : Bool :=
  decide (t.token = tok) && decide (t.type = .emailVerification)
    && decide (t.usedAt = none) && decide (now < t.expiresAt)

/-- The row transformation of Prisma
`update({ where: { id }, data: { usedAt: now } })` — conditioned ONLY on
the primary key, not on `usedAt`. -/
def evMarkUsed (id now : Nat) (t : VerificationToken) : VerificationToken :=
  if t.id = id then { t with usedAt := some now } else t

/-- The `findFirst` step of `verifyEmailVerificationToken`. -/
def findValidVerificationToken (db : TokenDb) (tok : String) (now : Nat) :
    Option VerificationToken :=
  db.verificationTokens.find? (evValid tok now)

/-- The `update` step of `verifyEmailVerificationToken`. -/
def markVerificationTokenUsed (db : TokenDb) (id now : Nat) : TokenDb :=
  { db with verificationTokens := (db.verificationTokens.map (evMarkUsed id now)) }

/-- `TokenService.verifyEmailVerificationToken`: find-then-mark; returns the
owning user (represented by their id) or null. -/
def verifyEmailVerificationToken (db : TokenDb) (tok : String) (now : Nat) :
    TokenDb × Option String :=
  match findValidVerificationToken db tok now with
  | none => (db, none)
  | some vt => (markVerificationTokenUsed db vt.id now, some vt.userId)

/-- The `findFirst` WHERE clause of `verifyPasswordResetToken`. -/
def prValid (tok : String) (now : Nat) (t : PasswordResetToken) : Bool :=
  decide (t.token = tok) && decide (t.usedAt = none) && decide (now < t.expiresAt)

/-- The row transformation of the password-reset mark-used update (again
conditioned only on the primary key). -/
def prMarkUsed (id now : Nat) (t : PasswordResetToken) : PasswordResetToken :=
  if t.id = id then { t with usedAt := some now } else t

/-- The `findFirst` step of `verifyPasswordResetToken`. -/
def findValidResetToken (db : TokenDb) (tok : String) (now : Nat) :
    Option PasswordResetToken :=
  db.passwordResetTokens.find? (prValid tok now)

/-- The `update` step of `verifyPasswordResetToken`. -/
def markResetTokenUsed (db : TokenDb) (id now : Nat) : TokenDb :=
  { db with passwordResetTokens := (db.passwordResetTokens.map (prMarkUsed id now)) }

/-- `TokenService.verifyPasswordResetToken`: find-then-mark; returns the
owning user (represented by their id) or null. -/
def verifyPasswordResetToken (db : TokenDb) (tok : String) (now : Nat) :
    TokenDb × Option String :=
  match findValidResetToken db tok now with
  | none => (db, none)
  | some rt => (markResetTokenUsed db rt.id now, some rt.userId)

/-- `TokenService.cleanupExpiredTokens`: delete all rows of both tables with
`expiresAt < now`, regardless of usage state. -/
def cleanupExpiredTokens (db : TokenDb) (now : Nat) : TokenDb :=
  ⟨db.verificationTokens.filter (fun t => !(decide (t.expiresAt < now))),
   db.passwordResetTokens.filter (fun t => !(decide (t.expiresAt < now)))⟩

/-- Row transformation of the `updateMany({ where: { userId, usedAt: null },
data: { usedAt: now } })` revocation sweep on the verification table. -/
def evRevoke (userId : String) (now : Nat) (t : VerificationToken) : VerificationToken :=
  if t.userId = userId ∧ t.usedAt = none then { t with usedAt := some now } else t

/-- Same revocation sweep on the password-reset table. -/
def prRevoke (userId : String) (now : Nat) (t : PasswordResetToken) : PasswordResetToken :=
  if t.userId = userId ∧ t.usedAt = none then { t with usedAt := some now } else t

/-- `TokenService.revokeAllUserTokens`: mark all of a user's unused rows
(both tables) as used (the returned counts are omitted here). -/
def revokeAllUserTokens (db : TokenDb) (userId : String) (now : Nat) : TokenDb :=
  ⟨db.verificationTokens.map (evRevoke userId now),
   db.passwordResetTokens.map (prRevoke userId now)⟩

/-- `usedAt` of the first verification row carrying a token string (for
stating "the token was marked used"). -/
def evTokenUsedAt (db : TokenDb) (tok : String) : Option (Option Nat) :=
  (db.verificationTokens.find? (fun t => decide (t.token = tok))).map VerificationToken.usedAt

/-- `usedAt` of the first password-reset row carrying a token string. -/
def prTokenUsedAt (db : TokenDb) (tok : String) : Option (Option Nat) :=
  (db.passwordResetTokens.find? (fun t => decide (t.token = tok))).map PasswordResetToken.usedAt

/-! ### Remaining auth handlers (`routes/auth.js`) -/

inductive ResetResult where
  | ok200 : ResetResult
  | validationError : String → ResetResult
  | typeError : String → ResetResult
deriving DecidableEq

/-- `POST /auth/reset-password` handler: consume the reset token (a real
store mutation), 400 if invalid; then call `UserService.updatePassword`,
a method that does not exist on `UserService` — the call raises
`TypeError`, so the password update, the `auth_token:<id>:*` cache sweep
and the 200 response are all unreachable. -/
def resetPasswordHandler (db : TokenDb) (now : Nat) (token : String) :
    TokenDb × ResetResult :=
  match verifyPasswordResetToken db token now with
  | (db', none) => (db', .validationError "Invalid or expired reset token")
  | (db', some _) => (db', .typeError "UserService.updatePassword is not a function")

inductive ForgotResult where
  | ok200 : ForgotResult
  | validationError : String → ForgotResult
deriving DecidableEq

/-- `POST /auth/forgot-password` handler.  `emailSendOk = false` models
`emailService.sendPasswordResetEmail` throwing, in which case the catch
block RE-THROWS a `ValidationError` (400). -/
def forgotPasswordHandler (udb : List UserRec) (tdb : TokenDb)
    (emailSendOk : Bool) (email freshTok : String) (newId now : Nat) :
    TokenDb × ForgotResult :=
  match udb.find? (fun u => u.email == email) with
  | none => (tdb, .ok200)
  | some u =>
    let tdb' := (createPasswordResetToken tdb u.id freshTok newId now).1
    if emailSendOk then (tdb', .ok200)
    else (tdb', .validationError "Failed to send password reset email")

/-! ### Book rating validation (`middleware/validation.js`,
`services/bookService.js`, `routes/books.js`)

The route chain is `validate(bookSchemas.createBook)` then
`BookService.createBook`.  The Zod schema for `rating` is
`z.string().regex(/^[1-5]$/).transform(Number).optional()`: it accepts
exactly the five one-character strings "1" … "5" (multipart form fields
arrive as strings).  The service then checks `rating < 1 || rating > 5`
before `prisma.book.create`. -/

structure BookRec where
  id : Nat
  title : String
  author : String
  rating : Option ℚ
  createdBy : String
deriving DecidableEq

/-- The `/^[1-5]$/` test of the Zod rating schema. -/
def ratingRegexOk (s : String) : Bool :=
  ["1", "2", "3", "4", "5"].contains s

/-- Zod `rating` field: optional; on a present field the regex gates the
`transform(Number)`. -/
def zodRatingParse : Option String → Except String (Option ℚ)
  | none => .ok none
  | some s =>
    if ratingRegexOk s then
      .ok (some ((s.toList.foldl (fun acc c => acc * 10 + (c.toNat - '0'.toNat)) 0 : Nat) : ℚ))
    else .error "Rating must be between 1 and 5"

/-- `BookService.createBook`: range-check a provided rating BEFORE the
store insert (`rating ? parseFloat(rating) : null` stores `null` for a
rating of 0, unreachable past the range check). -/
def createBookService (books : List BookRec) (newId : Nat) (title author : String)
    (rating : Option ℚ) (userId : String) : Except String (List BookRec × BookRec) :=
  match rating with
  | some r =>
    if r < 1 ∨ 5 < r then .error "Rating must be between 1 and 5"
    else
      let b : BookRec := ⟨newId, title, author, if r = 0 then none else some r, userId⟩
      .ok (books ++ [b], b)
  | none =>
    let b : BookRec := ⟨newId, title, author, none, userId⟩
    .ok (books ++ [b], b)

/-- `POST /books` pipeline: Zod validation middleware, then the service.
A `.error` is a 400 issued before any store mutation. -/
def createBookRoute (books : List BookRec) (newId : Nat) (title author : String)
    (ratingField : Option String) (userId : String) :
    Except String (List BookRec × BookRec) :=
  match zodRatingParse ratingField with
  | .error e => .error e
  | .ok r => createBookService books newId title author r userId

/-! ### Liveness of stored tokens (§3 of the spec: a token is valid iff
`usedAt` is null and `now < expiresAt`) -/

/-- A live (unused, unexpired) EMAIL_VERIFICATION row of user `u`. -/
def liveEV (u : String) (now : Nat) (t : VerificationToken) : Bool :=
  decide (t.userId = u) && decide (t.type = .emailVerification)
    && decide (t.usedAt = none) && decide (now < t.expiresAt)

/-- A live (unused, unexpired) password-reset row of user `u`. -/
def livePR (u : String) (now : Nat) (t : PasswordResetToken) : Bool :=
  decide (t.userId = u) && decide (t.usedAt = none) && decide (now < t.expiresAt)

/-- Number of live EMAIL_VERIFICATION tokens of user `u`. -/
def liveEVCount (db : TokenDb) (u : String) (now : Nat) : Nat :=
  db.verificationTokens.countP (liveEV u now)

/-- Number of live password-reset tokens of user `u`. -/
def livePRCount (db : TokenDb) (u : String) (now : Nat) : Nat :=
  db.passwordResetTokens.countP (livePR u now)

/-- The store invariant: every user has at most one live token per kind. -/
def atMostOneLive (db : TokenDb) (now : Nat) : Prop :=
  ∀ u : String, liveEVCount db u now ≤ 1 ∧ livePRCount db u now ≤ 1

/-! ### Concrete fixtures used by witnesses and counterexamples -/

def aliceU : UserRec := ⟨"ua", "Alice", "alice@example.com", false⟩

def bobU : UserRec := ⟨"ub", "Bob", "bob@example.com", false⟩

/-- Two users whose TEXT primary keys (like Prisma cuids) have no leading
digits, so JS `parseInt` yields `NaN` on both. -/
def twoUsersDb : List UserRec := [aliceU, bobU]

/-- A refresh-token verifier accepting exactly the token "r1". -/
def refreshVerifier : String → Option JwtPayload :=
  fun t => if t == "r1" then some ⟨"ua", "refresh", some 999999⟩ else none

/-- An access-token verifier accepting exactly the token "tokA". -/
def accessVerifier : String → Option JwtPayload :=
  fun t => if t == "tokA" then some ⟨"ua", "access", some 999999⟩ else none

/-- A decoder under which every token is malformed (`jwt.decode` = null). -/
def nullDecoder : String → Option JwtPayload := fun _ => none

/-- Store holding one unused password-reset token "rtok1" of user "ua". -/
def resetDb : TokenDb := ⟨[], [⟨1, "ua", "rtok1", 1000, none⟩]⟩

/-- Store holding one unused EMAIL_VERIFICATION token "etok1" of user "ua". -/
def raceDb : TokenDb := ⟨[⟨1, "ua", "etok1", .emailVerification, 1000, none⟩], []⟩

/-! ## Theorems -/

/-- C1: the claim states `findById` never returns another id's cached
record.  On the actual code the cache key is `user:${parseInt(id)}` while
ids are TEXT cuids, so non-numeric ids all collapse to the key
`user:NaN`: after `findById "ua"` warms the cache, `findById "ub"`
hits that same entry and returns Alice's record (id "ua"), not Bob's. -/
theorem C1_findById_returns_other_users_cached_record :
    (findById ⟨true, []⟩ twoUsersDb "ua").2 = some aliceU ∧
    (findById (findById ⟨true, []⟩ twoUsersDb "ua").1 twoUsersDb "ub").2 = some aliceU ∧
    aliceU.id = "ua" ∧
    generateKey "user" (jsNumKey (parseIntJs "ua"))
      = generateKey "user" (jsNumKey (parseIntJs "ub")) := by
  decide

/-- C2: the claim states a valid, non-blacklisted refresh token yields 200
with a fresh pair and gets blacklisted.  On the actual code the handler
reads the unbound identifier `redis` right after verification, so every
verifiable refresh token produces an uncaught ReferenceError (500), the
cache state is untouched (nothing blacklisted), and only an unverifiable
token reaches the 401 path. -/
theorem C2_refresh_always_reference_error :
    refreshHandler refreshVerifier ⟨true, []⟩ "r1"
      = (⟨true, []⟩, .referenceError "redis is not defined") ∧
    refreshHandler refreshVerifier ⟨true, []⟩ "bad"
      = (⟨true, []⟩, .authError "Invalid refresh token") := by
  decide

/-- C3: the claim states a valid reset token yields 200, a new password
hash and revoked sessions.  On the actual code the handler consumes the
token and then calls the nonexistent `UserService.updatePassword`, so a
valid token produces an uncaught TypeError (500) with the token already
burnt (`usedAt` set) and no password or session change; only the invalid
token path behaves as claimed (400). -/
theorem C3_reset_password_type_error :
    (resetPasswordHandler resetDb 10 "rtok1").2
      = .typeError "UserService.updatePassword is not a function" ∧
    prTokenUsedAt (resetPasswordHandler resetDb 10 "rtok1").1 "rtok1" = some (some 10) ∧
    resetPasswordHandler resetDb 10 "bad"
      = (resetDb, .validationError "Invalid or expired reset token") := by
  decide

/-- C4 counterexample: when the account exists and the best-effort email
send fails, the forgot-password handler responds 400, not 200 — the claim
that an email failure never changes the 200 outcome is false. -/
theorem C4_counterexample_email_failure_is_400 :
    (forgotPasswordHandler twoUsersDb ⟨[], []⟩ false "alice@example.com" "rt1" 1 0).2
      = .validationError "Failed to send password reset email" ∧
    (forgotPasswordHandler twoUsersDb ⟨[], []⟩ false "alice@example.com" "rt1" 1 0).2
      ≠ .ok200 := by
  decide

/-- C4 (amended): forgot-password responds 200 whenever the email does not
match an account (existence is not revealed) or the email send succeeds;
an email-send failure for an existing account, however, surfaces as a 400
`ValidationError`. -/
theorem C4_forgot_password_200 (udb : List UserRec) (tdb : TokenDb)
    (emailSendOk : Bool) (email freshTok : String) (newId now : Nat)
    (h : udb.find? (fun u => u.email == email) = none ∨ emailSendOk = true) :
    (forgotPasswordHandler udb tdb emailSendOk email freshTok newId now).2 = .ok200 := by
  unfold forgotPasswordHandler
  rcases h with h | h
  · rw [h]
  · subst h
    cases udb.find? (fun u => u.email == email) <;> simp

/-- C4 witness: a concrete unknown email gets a 200. -/
theorem C4_forgot_password_200_witness :
    (forgotPasswordHandler twoUsersDb ⟨[], []⟩ false "zoe@example.com" "rt1" 1 0).2
      = .ok200 :=
  C4_forgot_password_200 twoUsersDb ⟨[], []⟩ false "zoe@example.com" "rt1" 1 0
    (Or.inl (by decide))

/-- C5 counterexample: with the cache store down, a request carrying a
perfectly valid access token fails with the propagated store error — the
blacklist lookup in `authenticate` uses the raw rethrowing `redisUtils.get`,
not the degrade-to-miss cache service — while the identical request over a
healthy cache authenticates fine.  So request authentication does NOT
complete when the cache layer is unavailable. -/
theorem C5_counterexample_auth_blacklist_lookup_propagates :
    authenticate accessVerifier ⟨false, []⟩ twoUsersDb (some "Bearer tokA")
      = .error (.internal .storeDown) ∧
    authenticate accessVerifier ⟨true, []⟩ twoUsersDb (some "Bearer tokA")
      = .ok (⟨true, [⟨"user:NaN", .vUser aliceU, 600⟩]⟩, aliceU) :=
  ⟨rfl, rfl⟩

/-- C5 (amended): the six `CacheService` operations are indeed best-effort
— on a downed store each returns its miss/no-op value (null, 0, false)
without touching the state and without propagating an error — but the
blacklist lookup inside `authenticate` bypasses this wrapper (see the
counterexample). -/
theorem C5_cache_service_degrades_to_miss (s : List CacheEntry)
    (k pat : String) (v : RVal) (ttl : Nat) :
    csSet ⟨false, s⟩ k v ttl = (⟨false, s⟩, none) ∧
    csGet ⟨false, s⟩ k = none ∧
    csDelete ⟨false, s⟩ k = (⟨false, s⟩, 0) ∧
    csDeleteByPattern ⟨false, s⟩ pat = (⟨false, s⟩, 0) ∧
    csExists ⟨false, s⟩ k = false ∧
    csIncrement ⟨false, s⟩ k = (⟨false, s⟩, 0) :=
  ⟨rfl, rfl, rfl, rfl, rfl, rfl⟩

/-- C9: the claim states consumption is made atomic by a mark-used write
conditioned on `usedAt IS NULL`.  On the actual code the find and the mark
are two separate store operations and the update's predicate is only the
primary key: in the interleaving find/find/mark/mark of two concurrent
consumes of the same token, both finds see the unused row (both requests
then return the owning user — two successes), and the second unconditional
mark-used write happily overwrites the already-consumed row's `usedAt`
from 10 to 11. -/
theorem C9_mark_used_not_conditional_on_unused :
    (findValidVerificationToken raceDb "etok1" 10).map VerificationToken.userId
      = some "ua" ∧
    (findValidVerificationToken raceDb "etok1" 11).map VerificationToken.userId
      = some "ua" ∧
    evTokenUsedAt (markVerificationTokenUsed (markVerificationTokenUsed raceDb 1 10) 1 11)
      "etok1" = some (some 11) := by
  decide

/-! ### Helper lemmas for the token-store theorems -/

theorem evMarkUsed_token (id now : Nat) (t : VerificationToken) :
    (evMarkUsed id now t).token = t.token := by
  unfold evMarkUsed; split <;> rfl

theorem prMarkUsed_token (id now : Nat) (t : PasswordResetToken) :
    (prMarkUsed id now t).token = t.token := by
  unfold prMarkUsed; split <;> rfl

theorem evValid_false_of_token_ne {t : VerificationToken} {tok : String} (now : Nat)
    (h : t.token ≠ tok) : evValid tok now t = false := by
  simp [evValid, h]

theorem prValid_false_of_token_ne {t : PasswordResetToken} {tok : String} (now : Nat)
    (h : t.token ≠ tok) : prValid tok now t = false := by
  simp [prValid, h]

theorem evValid_false_of_used {t : VerificationToken} {tok : String} (now : Nat)
    (h : t.usedAt ≠ none) : evValid tok now t = false := by
  simp [evValid, h]

theorem prValid_false_of_used {t : PasswordResetToken} {tok : String} (now : Nat)
    (h : t.usedAt ≠ none) : prValid tok now t = false := by
  simp [prValid, h]

theorem evFind_none {l : List VerificationToken} {tok : String} {now : Nat}
    (h : ∀ t ∈ l, t.token ≠ tok) : l.find? (evValid tok now) = none := by
  rw [List.find?_eq_none]
  intro t ht
  simp [evValid_false_of_token_ne now (h t ht)]

theorem prFind_none {l : List PasswordResetToken} {tok : String} {now : Nat}
    (h : ∀ t ∈ l, t.token ≠ tok) : l.find? (prValid tok now) = none := by
  rw [List.find?_eq_none]
  intro t ht
  simp [prValid_false_of_token_ne now (h t ht)]

/-- C6: sequential consume-exactly-once, for both token kinds.  An issued
token (fresh string, not yet in the store) consumed before its expiry
returns the owning user and is marked used; a second consume of the same
string — at any later time — returns null and leaves the store unchanged;
and the result is the uniform null whether the string was never stored
(first conjunct of each block), already used (fourth) or expired unused
(fifth). -/
theorem C6_consume_exactly_once (db : TokenDb) (u evTok prTok : String)
    (idE idP now0 now1 now2 now3 : Nat)
    (hfreshE : ∀ t ∈ db.verificationTokens, t.token ≠ evTok)
    (hfreshP : ∀ t ∈ db.passwordResetTokens, t.token ≠ prTok)
    (h1E : now1 < now0 + 24 * 60 * 60 * 1000)
    (h1P : now1 < now0 + 60 * 60 * 1000)
    (h3E : now0 + 24 * 60 * 60 * 1000 ≤ now3)
    (h3P : now0 + 60 * 60 * 1000 ≤ now3) :
    verifyEmailVerificationToken db evTok now1 = (db, none) ∧
    (verifyEmailVerificationToken
      (createEmailVerificationToken db u evTok idE now0).1 evTok now1).2 = some u ∧
    evTokenUsedAt (verifyEmailVerificationToken
      (createEmailVerificationToken db u evTok idE now0).1 evTok now1).1 evTok
      = some (some now1) ∧
    verifyEmailVerificationToken (verifyEmailVerificationToken
      (createEmailVerificationToken db u evTok idE now0).1 evTok now1).1 evTok now2
      = ((verifyEmailVerificationToken
          (createEmailVerificationToken db u evTok idE now0).1 evTok now1).1, none) ∧
    (verifyEmailVerificationToken
      (createEmailVerificationToken db u evTok idE now0).1 evTok now3).2 = none ∧
    verifyPasswordResetToken db prTok now1 = (db, none) ∧
    (verifyPasswordResetToken
      (createPasswordResetToken db u prTok idP now0).1 prTok now1).2 = some u ∧
    prTokenUsedAt (verifyPasswordResetToken
      (createPasswordResetToken db u prTok idP now0).1 prTok now1).1 prTok
      = some (some now1) ∧
    verifyPasswordResetToken (verifyPasswordResetToken
      (createPasswordResetToken db u prTok idP now0).1 prTok now1).1 prTok now2
      = ((verifyPasswordResetToken
          (createPasswordResetToken db u prTok idP now0).1 prTok now1).1, none) ∧
    (verifyPasswordResetToken
      (createPasswordResetToken db u prTok idP now0).1 prTok now3).2 = none := by
  have hkE : ∀ t ∈ db.verificationTokens.filter (evKeep u), t.token ≠ evTok :=
    fun t ht => hfreshE t (List.mem_of_mem_filter ht)
  have hkP : ∀ t ∈ db.passwordResetTokens.filter (prKeep u), t.token ≠ prTok :=
    fun t ht => hfreshP t (List.mem_of_mem_filter ht)
  -- the store right after issuing, and the freshly inserted rows
  have hfind1E : findValidVerificationToken
      (createEmailVerificationToken db u evTok idE now0).1 evTok now1
      = some ⟨idE, u, evTok, .emailVerification, now0 + 24 * 60 * 60 * 1000, none⟩ := by
    show (db.verificationTokens.filter (evKeep u)
      ++ [(⟨idE, u, evTok, .emailVerification, now0 + 24 * 60 * 60 * 1000, none⟩ :
        VerificationToken)]).find? (evValid evTok now1) = _
    rw [List.find?_append, evFind_none hkE]
    simp [evValid, h1E]
  have hfind1P : findValidResetToken
      (createPasswordResetToken db u prTok idP now0).1 prTok now1
      = some ⟨idP, u, prTok, now0 + 60 * 60 * 1000, none⟩ := by
    show (db.passwordResetTokens.filter (prKeep u)
      ++ [(⟨idP, u, prTok, now0 + 60 * 60 * 1000, none⟩ : PasswordResetToken)]).find?
        (prValid prTok now1) = _
    rw [List.find?_append, prFind_none hkP]
    simp [prValid, h1P]
  have hver1E : verifyEmailVerificationToken
      (createEmailVerificationToken db u evTok idE now0).1 evTok now1
      = (markVerificationTokenUsed
          (createEmailVerificationToken db u evTok idE now0).1 idE now1, some u) := by
    unfold verifyEmailVerificationToken
    rw [hfind1E]
  have hver1P : verifyPasswordResetToken
      (createPasswordResetToken db u prTok idP now0).1 prTok now1
      = (markResetTokenUsed
          (createPasswordResetToken db u prTok idP now0).1 idP now1, some u) := by
    unfold verifyPasswordResetToken
    rw [hfind1P]
  -- the store after the first consume
  have hmlistE : (markVerificationTokenUsed
      (createEmailVerificationToken db u evTok idE now0).1 idE now1).verificationTokens
      = (db.verificationTokens.filter (evKeep u)).map (evMarkUsed idE now1)
        ++ [⟨idE, u, evTok, .emailVerification, now0 + 24 * 60 * 60 * 1000, some now1⟩] := by
    show ((db.verificationTokens.filter (evKeep u)
      ++ [(⟨idE, u, evTok, .emailVerification, now0 + 24 * 60 * 60 * 1000, none⟩ :
        VerificationToken)]).map (evMarkUsed idE now1)) = _
    rw [List.map_append]
    simp [evMarkUsed]
  have hmlistP : (markResetTokenUsed
      (createPasswordResetToken db u prTok idP now0).1 idP now1).passwordResetTokens
      = (db.passwordResetTokens.filter (prKeep u)).map (prMarkUsed idP now1)
        ++ [⟨idP, u, prTok, now0 + 60 * 60 * 1000, some now1⟩] := by
    show ((db.passwordResetTokens.filter (prKeep u)
      ++ [(⟨idP, u, prTok, now0 + 60 * 60 * 1000, none⟩ : PasswordResetToken)]).map
        (prMarkUsed idP now1)) = _
    rw [List.map_append]
    simp [prMarkUsed]
  have hmapNoneE : ∀ now' : Nat,
      ((db.verificationTokens.filter (evKeep u)).map (evMarkUsed idE now1)).find?
        (evValid evTok now') = none := by
    intro now'
    rw [List.find?_eq_none]
    intro x hx
    obtain ⟨t, ht, rfl⟩ := List.mem_map.mp hx
    simp [evValid_false_of_token_ne now'
      (show (evMarkUsed idE now1 t).token ≠ evTok by
        rw [evMarkUsed_token]; exact hkE t ht)]
  have hmapNoneP : ∀ now' : Nat,
      ((db.passwordResetTokens.filter (prKeep u)).map (prMarkUsed idP now1)).find?
        (prValid prTok now') = none := by
    intro now'
    rw [List.find?_eq_none]
    intro x hx
    obtain ⟨t, ht, rfl⟩ := List.mem_map.mp hx
    simp [prValid_false_of_token_ne now'
      (show (prMarkUsed idP now1 t).token ≠ prTok by
        rw [prMarkUsed_token]; exact hkP t ht)]
  have hfind2E : findValidVerificationToken (markVerificationTokenUsed
      (createEmailVerificationToken db u evTok idE now0).1 idE now1) evTok now2 = none := by
    unfold findValidVerificationToken
    rw [hmlistE, List.find?_append, hmapNoneE now2]
    simp [evValid_false_of_used now2
      (show (⟨idE, u, evTok, .emailVerification, now0 + 24 * 60 * 60 * 1000,
        some now1⟩ : VerificationToken).usedAt ≠ none by simp)]
  have hfind2P : findValidResetToken (markResetTokenUsed
      (createPasswordResetToken db u prTok idP now0).1 idP now1) prTok now2 = none := by
    unfold findValidResetToken
    rw [hmlistP, List.find?_append, hmapNoneP now2]
    simp [prValid_false_of_used now2
      (show (⟨idP, u, prTok, now0 + 60 * 60 * 1000,
        some now1⟩ : PasswordResetToken).usedAt ≠ none by simp)]
  have hfind3E : findValidVerificationToken
      (createEmailVerificationToken db u evTok idE now0).1 evTok now3 = none := by
    show (db.verificationTokens.filter (evKeep u)
      ++ [(⟨idE, u, evTok, .emailVerification, now0 + 24 * 60 * 60 * 1000, none⟩ :
        VerificationToken)]).find? (evValid evTok now3) = none
    rw [List.find?_append, evFind_none hkE]
    have hn : ¬ (now3 < now0 + 24 * 60 * 60 * 1000) := Nat.not_lt.mpr h3E
    simp [evValid, hn]
  have hfind3P : findValidResetToken
      (createPasswordResetToken db u prTok idP now0).1 prTok now3 = none := by
    show (db.passwordResetTokens.filter (prKeep u)
      ++ [(⟨idP, u, prTok, now0 + 60 * 60 * 1000, none⟩ : PasswordResetToken)]).find?
        (prValid prTok now3) = none
    rw [List.find?_append, prFind_none hkP]
    have hn : ¬ (now3 < now0 + 60 * 60 * 1000) := Nat.not_lt.mpr h3P
    simp [prValid, hn]
  refine ⟨?_, ?_, ?_, ?_, ?_, ?_, ?_, ?_, ?_, ?_⟩
  · unfold verifyEmailVerificationToken findValidVerificationToken
    rw [evFind_none hfreshE]
  · rw [hver1E]
  · rw [hver1E]
    unfold evTokenUsedAt
    rw [hmlistE, List.find?_append]
    have hn : ((db.verificationTokens.filter (evKeep u)).map (evMarkUsed idE now1)).find?
        (fun t => decide (t.token = evTok)) = none := by
      rw [List.find?_eq_none]
      intro x hx
      obtain ⟨t, ht, rfl⟩ := List.mem_map.mp hx
      simp [evMarkUsed_token, hkE t ht]
    rw [hn]
    simp
  · rw [hver1E]
    unfold verifyEmailVerificationToken
    rw [hfind2E]
  · unfold verifyEmailVerificationToken
    rw [hfind3E]
  · unfold verifyPasswordResetToken findValidResetToken
    rw [prFind_none hfreshP]
  · rw [hver1P]
  · rw [hver1P]
    unfold prTokenUsedAt
    rw [hmlistP, List.find?_append]
    have hn : ((db.passwordResetTokens.filter (prKeep u)).map (prMarkUsed idP now1)).find?
        (fun t => decide (t.token = prTok)) = none := by
      rw [List.find?_eq_none]
      intro x hx
      obtain ⟨t, ht, rfl⟩ := List.mem_map.mp hx
      simp [prMarkUsed_token, hkP t ht]
    rw [hn]
    simp
  · rw [hver1P]
    unfold verifyPasswordResetToken
    rw [hfind2P]
  · unfold verifyPasswordResetToken
    rw [hfind3P]

/-- C6 witness: a concrete run over an initially empty store — issue both
kinds at t = 0, consume at t = 5, retry at t = 7, and check the expired
copies at t = 86400000. -/
theorem C6_consume_exactly_once_witness :
    verifyEmailVerificationToken ⟨[], []⟩ "e1" 5 = (⟨[], []⟩, none) ∧
    (verifyEmailVerificationToken
      (createEmailVerificationToken ⟨[], []⟩ "u1" "e1" 1 0).1 "e1" 5).2 = some "u1" ∧
    evTokenUsedAt (verifyEmailVerificationToken
      (createEmailVerificationToken ⟨[], []⟩ "u1" "e1" 1 0).1 "e1" 5).1 "e1"
      = some (some 5) ∧
    verifyEmailVerificationToken (verifyEmailVerificationToken
      (createEmailVerificationToken ⟨[], []⟩ "u1" "e1" 1 0).1 "e1" 5).1 "e1" 7
      = ((verifyEmailVerificationToken
          (createEmailVerificationToken ⟨[], []⟩ "u1" "e1" 1 0).1 "e1" 5).1, none) ∧
    (verifyEmailVerificationToken
      (createEmailVerificationToken ⟨[], []⟩ "u1" "e1" 1 0).1 "e1" 86400000).2 = none ∧
    verifyPasswordResetToken ⟨[], []⟩ "p1" 5 = (⟨[], []⟩, none) ∧
    (verifyPasswordResetToken
      (createPasswordResetToken ⟨[], []⟩ "u1" "p1" 2 0).1 "p1" 5).2 = some "u1" ∧
    prTokenUsedAt (verifyPasswordResetToken
      (createPasswordResetToken ⟨[], []⟩ "u1" "p1" 2 0).1 "p1" 5).1 "p1"
      = some (some 5) ∧
    verifyPasswordResetToken (verifyPasswordResetToken
      (createPasswordResetToken ⟨[], []⟩ "u1" "p1" 2 0).1 "p1" 5).1 "p1" 7
      = ((verifyPasswordResetToken
          (createPasswordResetToken ⟨[], []⟩ "u1" "p1" 2 0).1 "p1" 5).1, none) ∧
    (verifyPasswordResetToken
      (createPasswordResetToken ⟨[], []⟩ "u1" "p1" 2 0).1 "p1" 86400000).2 = none :=
  C6_consume_exactly_once ⟨[], []⟩ "u1" "e1" "p1" 1 2 0 5 7 86400000
    (by simp) (by simp) (by decide) (by decide) (by decide) (by decide)

/-! ### Helper lemmas for the at-most-one-live-token invariant -/

theorem countP_map_le {α : Type} (l : List α) (f : α → α) (p : α → Bool)
    (h : ∀ a, p (f a) = true → p a = true) : (l.map f).countP p ≤ l.countP p := by
  rw [List.countP_map]
  exact List.countP_mono_left (fun x _ hx => h x hx)

theorem liveEV_userId {u : String} {now : Nat} {t : VerificationToken}
    (h : liveEV u now t = true) : t.userId = u ∧ t.type = .emailVerification := by
  simp only [liveEV, Bool.and_eq_true, decide_eq_true_eq] at h
  tauto

theorem livePR_userId {u : String} {now : Nat} {t : PasswordResetToken}
    (h : livePR u now t = true) : t.userId = u := by
  simp only [livePR, Bool.and_eq_true, decide_eq_true_eq] at h
  tauto

theorem liveEV_unused {u : String} {now : Nat} {t : VerificationToken}
    (h : liveEV u now t = true) : t.usedAt = none := by
  simp only [liveEV, Bool.and_eq_true, decide_eq_true_eq] at h
  tauto

theorem livePR_unused {u : String} {now : Nat} {t : PasswordResetToken}
    (h : livePR u now t = true) : t.usedAt = none := by
  simp only [livePR, Bool.and_eq_true, decide_eq_true_eq] at h
  tauto

theorem liveEV_of_evMarkUsed {u : String} {now id now' : Nat} {t : VerificationToken}
    (h : liveEV u now (evMarkUsed id now' t) = true) : liveEV u now t = true := by
  unfold evMarkUsed at h
  split at h
  · exact absurd (liveEV_unused h) (by simp)
  · exact h

theorem livePR_of_prMarkUsed {u : String} {now id now' : Nat} {t : PasswordResetToken}
    (h : livePR u now (prMarkUsed id now' t) = true) : livePR u now t = true := by
  unfold prMarkUsed at h
  split at h
  · exact absurd (livePR_unused h) (by simp)
  · exact h

theorem liveEV_of_evRevoke {u uid : String} {now now' : Nat} {t : VerificationToken}
    (h : liveEV u now (evRevoke uid now' t) = true) : liveEV u now t = true := by
  unfold evRevoke at h
  split at h
  · exact absurd (liveEV_unused h) (by simp)
  · exact h

theorem livePR_of_prRevoke {u uid : String} {now now' : Nat} {t : PasswordResetToken}
    (h : livePR u now (prRevoke uid now' t) = true) : livePR u now t = true := by
  unfold prRevoke at h
  split at h
  · exact absurd (livePR_unused h) (by simp)
  · exact h

theorem liveEVCount_create (db : TokenDb) (u tok : String) (idE now tclock : Nat) :
    liveEVCount (createEmailVerificationToken db u tok idE now).1 u tclock ≤ 1 := by
  show ((db.verificationTokens.filter (evKeep u))
    ++ [(⟨idE, u, tok, .emailVerification, now + 24 * 60 * 60 * 1000, none⟩ :
      VerificationToken)]).countP (liveEV u tclock) ≤ 1
  rw [List.countP_append]
  have h0 : (db.verificationTokens.filter (evKeep u)).countP (liveEV u tclock) = 0 := by
    rw [List.countP_eq_zero]
    intro t ht hl
    have hk : evKeep u t = true := (List.mem_filter.mp ht).2
    obtain ⟨h1, h2⟩ := liveEV_userId hl
    simp [evKeep, h1, h2] at hk
  rw [h0, List.countP_singleton]
  split <;> simp

theorem livePRCount_create (db : TokenDb) (u tok : String) (idP now tclock : Nat) :
    livePRCount (createPasswordResetToken db u tok idP now).1 u tclock ≤ 1 := by
  show ((db.passwordResetTokens.filter (prKeep u))
    ++ [(⟨idP, u, tok, now + 60 * 60 * 1000, none⟩ : PasswordResetToken)]).countP
      (livePR u tclock) ≤ 1
  rw [List.countP_append]
  have h0 : (db.passwordResetTokens.filter (prKeep u)).countP (livePR u tclock) = 0 := by
    rw [List.countP_eq_zero]
    intro t ht hl
    have hk : prKeep u t = true := (List.mem_filter.mp ht).2
    simp [prKeep, livePR_userId hl] at hk
  rw [h0, List.countP_singleton]
  split <;> simp

theorem liveEVCount_create_other (db : TokenDb) (u u' tok : String)
    (idE now tclock : Nat) (hne : u' ≠ u) (hle : liveEVCount db u' tclock ≤ 1) :
    liveEVCount (createEmailVerificationToken db u tok idE now).1 u' tclock ≤ 1 := by
  show ((db.verificationTokens.filter (evKeep u))
    ++ [(⟨idE, u, tok, .emailVerification, now + 24 * 60 * 60 * 1000, none⟩ :
      VerificationToken)]).countP (liveEV u' tclock) ≤ 1
  rw [List.countP_append]
  have h1 : (db.verificationTokens.filter (evKeep u)).countP (liveEV u' tclock)
      ≤ db.verificationTokens.countP (liveEV u' tclock) :=
    (List.filter_sublist _).countP_le _
  have h2 : ([(⟨idE, u, tok, .emailVerification, now + 24 * 60 * 60 * 1000, none⟩ :
      VerificationToken)]).countP (liveEV u' tclock) = 0 := by
    rw [List.countP_eq_zero]
    intro t ht hl
    rw [List.mem_singleton] at ht
    subst ht
    exact hne ((liveEV_userId hl).1.symm)
  unfold liveEVCount at hle
  omega

theorem livePRCount_create_other (db : TokenDb) (u u' tok : String)
    (idP now tclock : Nat) (hne : u' ≠ u) (hle : livePRCount db u' tclock ≤ 1) :
    livePRCount (createPasswordResetToken db u tok idP now).1 u' tclock ≤ 1 := by
  show ((db.passwordResetTokens.filter (prKeep u))
    ++ [(⟨idP, u, tok, now + 60 * 60 * 1000, none⟩ : PasswordResetToken)]).countP
      (livePR u' tclock) ≤ 1
  rw [List.countP_append]
  have h1 : (db.passwordResetTokens.filter (prKeep u)).countP (livePR u' tclock)
      ≤ db.passwordResetTokens.countP (livePR u' tclock) :=
    (List.filter_sublist _).countP_le _
  have h2 : ([(⟨idP, u, tok, now + 60 * 60 * 1000, none⟩ :
      PasswordResetToken)]).countP (livePR u' tclock) = 0 := by
    rw [List.countP_eq_zero]
    intro t ht hl
    rw [List.mem_singleton] at ht
    subst ht
    exact hne ((livePR_userId hl).symm)
  unfold livePRCount at hle
  omega

/-- C7: after issuing a token of a kind for user `u`, the store holds
EXACTLY one row of that kind for `u` (the delete-before-create), and the
at-most-one-live-token-per-kind-per-user invariant is preserved by every
token-store operation: both issue operations, both consume operations,
the expiry sweep, and the revoke-all sweep. -/
theorem C7_at_most_one_live_token (db : TokenDb) (u tokE tokP : String)
    (idE idP now tclock : Nat) (hInv : atMostOneLive db tclock) :
    (createEmailVerificationToken db u tokE idE now).1.verificationTokens.countP
      (fun t => decide (t.userId = u) && decide (t.type = VTokenType.emailVerification))
      = 1 ∧
    (createPasswordResetToken db u tokP idP now).1.passwordResetTokens.countP
      (fun t => decide (t.userId = u)) = 1 ∧
    atMostOneLive (createEmailVerificationToken db u tokE idE now).1 tclock ∧
    atMostOneLive (createPasswordResetToken db u tokP idP now).1 tclock ∧
    atMostOneLive (verifyEmailVerificationToken db tokE now).1 tclock ∧
    atMostOneLive (verifyPasswordResetToken db tokP now).1 tclock ∧
    atMostOneLive (cleanupExpiredTokens db now) tclock ∧
    atMostOneLive (revokeAllUserTokens db u now) tclock := by
  refine ⟨?_, ?_, ?_, ?_, ?_, ?_, ?_, ?_⟩
  · show ((db.verificationTokens.filter (evKeep u))
      ++ [(⟨idE, u, tokE, .emailVerification, now + 24 * 60 * 60 * 1000, none⟩ :
        VerificationToken)]).countP _ = 1
    rw [List.countP_append]
    have h0 : (db.verificationTokens.filter (evKeep u)).countP
        (fun t => decide (t.userId = u) && decide (t.type = VTokenType.emailVerification))
        = 0 := by
      rw [List.countP_eq_zero]
      intro t ht hp
      have hk : evKeep u t = true := (List.mem_filter.mp ht).2
      simp only [Bool.and_eq_true, decide_eq_true_eq] at hp
      simp [evKeep, hp.1, hp.2] at hk
    rw [h0, List.countP_singleton]
    simp
  · show ((db.passwordResetTokens.filter (prKeep u))
      ++ [(⟨idP, u, tokP, now + 60 * 60 * 1000, none⟩ : PasswordResetToken)]).countP _ = 1
    rw [List.countP_append]
    have h0 : (db.passwordResetTokens.filter (prKeep u)).countP
        (fun t => decide (t.userId = u)) = 0 := by
      rw [List.countP_eq_zero]
      intro t ht hp
      have hk : prKeep u t = true := (List.mem_filter.mp ht).2
      simp only [decide_eq_true_eq] at hp
      simp [prKeep, hp] at hk
    rw [h0, List.countP_singleton]
    simp
  · intro u'
    refine ⟨?_, (hInv u').2⟩
    by_cases hu : u' = u
    · subst hu; exact liveEVCount_create db u' tokE idE now tclock
    · exact liveEVCount_create_other db u u' tokE idE now tclock hu (hInv u').1
  · intro u'
    refine ⟨(hInv u').1, ?_⟩
    by_cases hu : u' = u
    · subst hu; exact livePRCount_create db u' tokP idP now tclock
    · exact livePRCount_create_other db u u' tokP idP now tclock hu (hInv u').2
  · intro u'
    unfold verifyEmailVerificationToken
    cases hf : findValidVerificationToken db tokE now with
    | none => exact hInv u'
    | some vt =>
      refine ⟨?_, (hInv u').2⟩
      exact le_trans
        (countP_map_le _ _ _ (fun a ha => liveEV_of_evMarkUsed ha)) (hInv u').1
  · intro u'
    unfold verifyPasswordResetToken
    cases hf : findValidResetToken db tokP now with
    | none => exact hInv u'
    | some rt =>
      refine ⟨(hInv u').1, ?_⟩
      exact le_trans
        (countP_map_le _ _ _ (fun a ha => livePR_of_prMarkUsed ha)) (hInv u').2
  · intro u'
    exact ⟨le_trans ((List.filter_sublist _).countP_le _) (hInv u').1,
           le_trans ((List.filter_sublist _).countP_le _) (hInv u').2⟩
  · intro u'
    exact ⟨le_trans (countP_map_le _ _ _ (fun a ha => liveEV_of_evRevoke ha)) (hInv u').1,
           le_trans (countP_map_le _ _ _ (fun a ha => livePR_of_prRevoke ha)) (hInv u').2⟩

/-- C7 witness: the invariant facts at a concrete store (empty) and
concrete arguments. -/
theorem C7_at_most_one_live_token_witness :
    (createEmailVerificationToken ⟨[], []⟩ "u1" "e1" 1 0).1.verificationTokens.countP
      (fun t => decide (t.userId = "u1") && decide (t.type = VTokenType.emailVerification))
      = 1 ∧
    (createPasswordResetToken ⟨[], []⟩ "u1" "p1" 2 0).1.passwordResetTokens.countP
      (fun t => decide (t.userId = "u1")) = 1 ∧
    atMostOneLive (createEmailVerificationToken ⟨[], []⟩ "u1" "e1" 1 0).1 5 ∧
    atMostOneLive (createPasswordResetToken ⟨[], []⟩ "u1" "p1" 2 0).1 5 ∧
    atMostOneLive (verifyEmailVerificationToken ⟨[], []⟩ "e1" 0).1 5 ∧
    atMostOneLive (verifyPasswordResetToken ⟨[], []⟩ "p1" 0).1 5 ∧
    atMostOneLive (cleanupExpiredTokens ⟨[], []⟩ 0) 5 ∧
    atMostOneLive (revokeAllUserTokens ⟨[], []⟩ "u1" 0) 5 :=
  C7_at_most_one_live_token ⟨[], []⟩ "u1" "e1" "p1" 1 2 0 5
    (fun _ => ⟨Nat.zero_le 1, Nat.zero_le 1⟩)

/-- C8: the claim states 0.99 and 5.01 are rejected while the fractional
in-range ratings 1.0 and 5.0 are accepted and persisted.  On the actual
code the request pipeline's Zod schema `/^[1-5]$/` admits only the five
one-character strings, so "1.0" and "5.0" (and any fractional rating) are
rejected with the same 400 as 0.99 and 5.01 — even though the service
layer itself, the route's own OpenAPI annotation (`type: number`, min 1,
max 5) and the DOUBLE PRECISION column all accept fractional values in
[1, 5] (last four conjuncts). -/
theorem C8_rating_boundary :
    createBookRoute [] 1 "T" "A" (some "0.99") "ua"
      = .error "Rating must be between 1 and 5" ∧
    createBookRoute [] 1 "T" "A" (some "5.01") "ua"
      = .error "Rating must be between 1 and 5" ∧
    createBookRoute [] 1 "T" "A" (some "1.0") "ua"
      = .error "Rating must be between 1 and 5" ∧
    createBookRoute [] 1 "T" "A" (some "5.0") "ua"
      = .error "Rating must be between 1 and 5" ∧
    createBookRoute [] 1 "T" "A" (some "1") "ua"
      = .ok ([⟨1, "T", "A", some 1, "ua"⟩], ⟨1, "T", "A", some 1, "ua"⟩) ∧
    createBookRoute [] 1 "T" "A" (some "5") "ua"
      = .ok ([⟨1, "T", "A", some 5, "ua"⟩], ⟨1, "T", "A", some 5, "ua"⟩) ∧
    createBookService [] 1 "T" "A" (some 1) "ua"
      = .ok ([⟨1, "T", "A", some 1, "ua"⟩], ⟨1, "T", "A", some 1, "ua"⟩) ∧
    createBookService [] 1 "T" "A" (some 5) "ua"
      = .ok ([⟨1, "T", "A", some 5, "ua"⟩], ⟨1, "T", "A", some 5, "ua"⟩) ∧
    createBookService [] 1 "T" "A" (some ((99 : ℚ) / 100)) "ua"
      = .error "Rating must be between 1 and 5" ∧
    createBookService [] 1 "T" "A" (some ((501 : ℚ) / 100)) "ua"
      = .error "Rating must be between 1 and 5" := by
  refine ⟨by decide, by decide, by decide, by decide, ?_, ?_, ?_, ?_, ?_, ?_⟩
  · simp [createBookRoute, zodRatingParse, ratingRegexOk, createBookService]
  · simp [createBookRoute, zodRatingParse, ratingRegexOk, createBookService]
  · norm_num [createBookService]
  · norm_num [createBookService]
  · have h : ((99 : ℚ) / 100) < 1 := by norm_num
    simp [createBookService, h]
  · have h : (5 : ℚ) < (501 : ℚ) / 100 := by norm_num
    simp [createBookService, h]

/-- C10: `blacklistToken` never throws and silently does nothing when the
token is malformed (`jwt.decode` returns null / a payload without a
truthy `exp`), when `exp` is already past, or when the cache store is
down; the logout handler therefore reports 200 in every case — in
particular even when no blacklist entry was written, leaving the
presented token usable until its natural expiry. -/
theorem C10_blacklist_silent_noop (decode : String → Option JwtPayload)
    (c : CacheState) (token : String) (now : Nat) (a r : Option String)
    (h : (decode token).bind JwtPayload.exp = none
      ∨ (∃ e, (decode token).bind JwtPayload.exp = some e ∧ e ≤ now)
      ∨ c.up = false) :
    blacklistToken decode c token now = c ∧
    logoutHandler decode c (some token) none now = (c, 200) ∧
    (logoutHandler decode c a r now).2 = 200 := by
  have hb : blacklistToken decode c token now = c := by
    cases hd : decode token with
    | none => simp [blacklistToken, hd]
    | some d =>
      cases he : d.exp with
      | none => simp [blacklistToken, hd, he]
      | some e =>
        have hcase : e ≤ now ∨ c.up = false := by
          rcases h with h | ⟨e', he', hle⟩ | h
          · rw [hd] at h
            rw [show (some d).bind JwtPayload.exp = d.exp from rfl, he] at h
            exact absurd h (by simp)
          · rw [hd] at he'
            rw [show (some d).bind JwtPayload.exp = d.exp from rfl, he] at he'
            obtain rfl : e = e' := Option.some.inj he'
            exact Or.inl hle
          · exact Or.inr h
        rcases hcase with hle | hup
        · have hn : ¬ (0 < (e : Int) - (now : Int)) := by omega
          simp [blacklistToken, hd, he, hn]
        · by_cases hlt : 0 < (e : Int) - (now : Int)
          · simp [blacklistToken, hd, he, hlt, redisSetEx, hup]
          · simp [blacklistToken, hd, he, hlt]
  refine ⟨hb, ?_, ?_⟩
  · simp only [logoutHandler, hb]
  · cases a <;> cases r <;> rfl

/-- C10 witness: a malformed token over a healthy cache — nothing written,
logout 200. -/
theorem C10_blacklist_silent_noop_witness :
    blacklistToken nullDecoder ⟨true, []⟩ "garbage" 0 = ⟨true, []⟩ ∧
    logoutHandler nullDecoder ⟨true, []⟩ (some "garbage") none 0 = (⟨true, []⟩, 200) ∧
    (logoutHandler nullDecoder ⟨true, []⟩ (some "garbage") (some "r") 0).2 = 200 :=
  C10_blacklist_silent_noop nullDecoder ⟨true, []⟩ "garbage" 0 (some "garbage") (some "r")
    (Or.inl rfl)

end BookApi
